import Mathlib

/-!
Verification of the conversation-turn assembly and provider-call pipeline of
the telegram-gemini-bot repository (src/app.js).  The repository holds several
concatenated drafts of one file; unless stated otherwise the definitions below
embed the final draft (src/app.js lines 627-1538).  JavaScript strings are
modelled by Lean strings, byte buffers by lists of naturals below 256, and the
asynchronous collaborators (Telegram download, Gemini File API, the generate
call) by explicit outcome parameters.
-/

/-! ### JavaScript string and byte helpers -/

/-- Whitespace characters recognised by the JS trim and blank checks used in
the source (space, tab, newline, carriage return). -/
def isWsChar (c : Char) : Bool :=
  c == ' ' || c == '\t' || c == '\n' || c == '\r'

/-- Drop leading whitespace characters. -/
def trimStartChars : List Char → List Char
  | [] => []
  | c :: r => if isWsChar c then trimStartChars r else c :: r

/-- Model of JS String.prototype.trim. -/
def jsTrim (s : String) : String :=
  String.mk ((trimStartChars (trimStartChars s.toList).reverse).reverse)

/-- Model of the JS check that a string trims to the empty string, used as the
negation of the source condition text and text.trim().length greater than 0. -/
def jsBlank (s : String) : Bool :=
  s.toList.all isWsChar

/-- Model of JS String.prototype.startsWith. -/
def strStartsWith (s p : String) : Bool :=
  p.toList.isPrefixOf s.toList

/-- Whether the pattern occurs as a contiguous subsequence of the list. -/
def containsSeq [BEq α] (needle : List α) : List α → Bool
  | [] => needle.isEmpty
  | a :: rest => needle.isPrefixOf (a :: rest) || containsSeq needle rest

/-- Model of JS String.prototype.includes (substring containment). -/
def strIncludes (s pat : String) : Bool :=
  containsSeq pat.toList s.toList

/-- Upper-case hexadecimal digit for a value below 16. -/
def hexDigitUpper (n : Nat) : Char :=
  if n < 10 then Char.ofNat (48 + n) else Char.ofNat (55 + n)

/-- Two upper-case hexadecimal digits of one byte. -/
def byteToHex (b : Nat) : String :=
  String.mk [hexDigitUpper ((b / 16) % 16), hexDigitUpper (b % 16)]

/-- Model of Buffer.toString applied with the hex encoding followed by
toUpperCase, as the source does to build the signature string. -/
def bytesToHexUpper (bs : List Nat) : String :=
  String.join (bs.map byteToHex)

/-- Model of Buffer.toString with the ascii encoding (Node masks each byte to
seven bits). -/
def bytesToAscii (bs : List Nat) : String :=
  String.mk (bs.map (fun b => Char.ofNat (b % 128)))

/-- Split a character list on the dot character, keeping empty components,
mirroring JS String.prototype.split. -/
def splitOnDot : List Char → List (List Char)
  | [] => [[]]
  | c :: rest =>
    let r := splitOnDot rest
    if c == '.' then [] :: r
    else
      match r with
      | [] => [[c]]
      | h :: t => (c :: h) :: t

/-- Model of the source expression fileName.toLowerCase().split(period).pop()
with the empty-string default (src/app.js line 772). -/
def jsExt (fileName : String) : String :=
  String.mk ((splitOnDot (fileName.toList.map Char.toLower)).getLastD [])

/-- The base64 alphabet. -/
def base64Table : List Char :=
  "ABCDEFGHIJKLMNOPQRSTUVWXYZabcdefghijklmnopqrstuvwxyz0123456789+/".toList

/-- Character of the base64 alphabet at the given index. -/
def b64c (n : Nat) : Char := base64Table.getD n 'A'

/-- Model of Buffer.toString with the base64 encoding, used by the inline-data
branch of the handler (src/app.js line 1258). -/
def base64encode : List Nat → String
  | [] => ""
  | [a] => String.mk [b64c (a / 4), b64c ((a % 4) * 16), '=', '=']
  | [a, b] => String.mk [b64c (a / 4), b64c ((a % 4) * 16 + b / 16), b64c ((b % 16) * 4), '=']
  | a :: b :: c :: rest =>
      String.mk [b64c (a / 4), b64c ((a % 4) * 16 + b / 16),
                 b64c ((b % 16) * 4 + c / 64), b64c (c % 64)] ++ base64encode rest

/-! ### Core data model -/

/-- Role tag of a conversation turn. -/
inductive Role where
  | user
  | model
deriving DecidableEq

/-- One content part of a prompt or history turn: plain text, inline base64
media, or a staged Gemini File API reference. -/
inductive CPart where
  | text (s : String)
  | inlineData (mimeType : String) (dataB64 : String)
  | fileData (mimeType : String) (uri : String)
deriving DecidableEq

/-- One conversation turn: a role together with its ordered content parts. -/
structure Turn where
  role : Role
  parts : List CPart
deriving DecidableEq

/-- Per-user session state initialised by the session middleware
(src/app.js lines 704-725); lastMessageTime is bookkeeping of the session
layer and is not part of the conversation state. -/
structure Session where
  history : List Turn
  systemInstruction : Option String
  model : String
  urlContext : Bool
  googleSearch : Bool
  talkMode : Bool
  totalTokens : Nat
deriving DecidableEq

/-- Session defaults installed by the middleware for a fresh user. -/
def initialSession : Session :=
  { history := []
    systemInstruction := none
    model := "gemini-2.5-pro-preview-05-06"
    urlContext := false
    googleSearch := true
    talkMode := true
    totalTokens := 0 }

/-! ### MimeSniffer: detectMimeType (src/app.js lines 766-832) -/

/-- Embedding of detectMimeType: signature sniffing over the first sixteen
bytes with interleaved extension checks, a short-buffer guard, and the
application/octet-stream fallback (src/app.js lines 766-832). -/
def detectMimeType (buffer : List Nat) (fileName : String) : String :=
  if buffer.length < 4 then "application/octet-stream" else
  let signature := bytesToHexUpper (buffer.take 16)
  let ext := jsExt fileName
  if strStartsWith signature "89504E47" then "image/png" else
  if strStartsWith signature "FFD8FF" then "image/jpeg" else
  if strStartsWith signature "47494638" then "image/gif" else
  if strStartsWith signature "52494646" && bytesToHexUpper ((buffer.drop 8).take 4) == "57454250" then "image/webp" else
  if strStartsWith signature "424D" then "image/bmp" else
  if strStartsWith signature "49492A00" || strStartsWith signature "4D4D002A" then "image/tiff" else
  if strIncludes signature "66747970" || ext == "mp4" then "video/mp4" else
  if strStartsWith signature "1A45DFA3" || ext == "webm" then "video/webm" else
  if strStartsWith signature "464C5601" || ext == "flv" then "video/x-flv" else
  if ext == "avi" then "video/x-msvideo" else
  if ext == "mov" || ext == "qt" then "video/quicktime" else
  if ext == "mkv" then "video/x-matroska" else
  if strStartsWith signature "494433" || strStartsWith signature "FFFB" || strStartsWith signature "FFF3" || ext == "mp3" then "audio/mpeg" else
  if strStartsWith signature "4F676753" || ext == "ogg" then "audio/ogg" else
  if strStartsWith signature "52494646" && bytesToAscii ((buffer.drop 8).take 4) == "WAVE" then "audio/wav" else
  if ext == "flac" then "audio/flac" else
  if ext == "aac" then "audio/aac" else
  if ext == "m4a" then "audio/mp4" else
  if strStartsWith signature "25504446" || ext == "pdf" then "application/pdf" else
  if strStartsWith signature "504B0304" || strStartsWith signature "504B0506" || strStartsWith signature "504B0708" then
    (if ext == "docx" then "application/vnd.openxmlformats-officedocument.wordprocessingml.document" else
     if ext == "xlsx" then "application/vnd.openxmlformats-officedocument.spreadsheetml.sheet" else
     if ext == "pptx" then "application/vnd.openxmlformats-officedocument.presentationml.presentation" else
     "application/zip") else
  if strStartsWith signature "D0CF11E0A1B11AE1" then
    (if ext == "doc" then "application/msword" else
     if ext == "xls" then "application/vnd.ms-excel" else
     if ext == "ppt" then "application/vnd.ms-powerpoint" else
     "application/x-ole-storage") else
  if ext == "txt" then "text/plain" else
  if ext == "html" || ext == "htm" then "text/html" else
  if ext == "css" then "text/css" else
  if ext == "js" then "application/javascript" else
  if ext == "json" then "application/json" else
  if ext == "xml" then "application/xml" else
  if ext == "md" then "text/markdown" else
  if ext == "csv" then "text/csv" else
  if ext == "rtf" then "text/rtf" else
  if ext == "py" then "text/x-python" else
  if strStartsWith signature "1F8B08" || ext == "gz" then "application/gzip" else
  if strStartsWith signature "377ABCAF271C" || ext == "7z" then "application/x-7z-compressed" else
  if strStartsWith signature "526172211A0700" || ext == "rar" then "application/x-rar-compressed" else
  "application/octet-stream"

/-- Disjunction of every byte-signature pattern tested by detectMimeType
(exactly the signature halves of its conditions, in order). -/
def sigMatches (buffer : List Nat) : Bool :=
  let signature := bytesToHexUpper (buffer.take 16)
  strStartsWith signature "89504E47" ||
  strStartsWith signature "FFD8FF" ||
  strStartsWith signature "47494638" ||
  (strStartsWith signature "52494646" && bytesToHexUpper ((buffer.drop 8).take 4) == "57454250") ||
  strStartsWith signature "424D" ||
  strStartsWith signature "49492A00" || strStartsWith signature "4D4D002A" ||
  strIncludes signature "66747970" ||
  strStartsWith signature "1A45DFA3" ||
  strStartsWith signature "464C5601" ||
  strStartsWith signature "494433" || strStartsWith signature "FFFB" || strStartsWith signature "FFF3" ||
  strStartsWith signature "4F676753" ||
  (strStartsWith signature "52494646" && bytesToAscii ((buffer.drop 8).take 4) == "WAVE") ||
  strStartsWith signature "25504446" ||
  strStartsWith signature "504B0304" || strStartsWith signature "504B0506" || strStartsWith signature "504B0708" ||
  strStartsWith signature "D0CF11E0A1B11AE1" ||
  strStartsWith signature "1F8B08" ||
  strStartsWith signature "377ABCAF271C" ||
  strStartsWith signature "526172211A0700"

/-- Modelled from the spec: the pure extension-lookup table of section 4.1,
listing exactly the extensions that detectMimeType accepts without a
signature, in source order.  Returns none for an unknown extension. -/
def specExtensionLookup (ext : String) : Option String :=
  if ext == "mp4" then some "video/mp4" else
  if ext == "webm" then some "video/webm" else
  if ext == "flv" then some "video/x-flv" else
  if ext == "avi" then some "video/x-msvideo" else
  if ext == "mov" || ext == "qt" then some "video/quicktime" else
  if ext == "mkv" then some "video/x-matroska" else
  if ext == "mp3" then some "audio/mpeg" else
  if ext == "ogg" then some "audio/ogg" else
  if ext == "flac" then some "audio/flac" else
  if ext == "aac" then some "audio/aac" else
  if ext == "m4a" then some "audio/mp4" else
  if ext == "pdf" then some "application/pdf" else
  if ext == "txt" then some "text/plain" else
  if ext == "html" || ext == "htm" then some "text/html" else
  if ext == "css" then some "text/css" else
  if ext == "js" then some "application/javascript" else
  if ext == "json" then some "application/json" else
  if ext == "xml" then some "application/xml" else
  if ext == "md" then some "text/markdown" else
  if ext == "csv" then some "text/csv" else
  if ext == "rtf" then some "text/rtf" else
  if ext == "py" then some "text/x-python" else
  if ext == "gz" then some "application/gzip" else
  if ext == "7z" then some "application/x-7z-compressed" else
  if ext == "rar" then some "application/x-rar-compressed" else
  none

/-! ### AssetStager: processing strategy and File API polling -/

/-- The models the final draft treats as File API capable
(src/app.js lines 750-756). -/
def CAPABLE_FILE_MODELS : List String :=
  ["gemini-2.5-pro-preview-05-06",
   "gemini-2.5-flash-preview-05-20",
   "gemini-2.5-flash-preview-04-17",
   "gemini-2.0-flash",
   "gemini-2.0-flash-lite"]

/-- Result of getFileProcessingStrategy (src/app.js lines 1018-1024). -/
structure FileStrategy where
  canProcess : Bool
  useInlineData : Bool
  useFileAPI : Bool
  isSupported : Bool
  recommendation : String
deriving DecidableEq

/-- Embedding of getFileProcessingStrategy (src/app.js lines 975-1025). -/
def getFileProcessingStrategy (mimeType currentModel : String) : FileStrategy :=
  let isCapableModel := CAPABLE_FILE_MODELS.contains currentModel
  let isImage := strStartsWith mimeType "image/"
  let isVideo := strStartsWith mimeType "video/"
  let isAudio := strStartsWith mimeType "audio/"
  let isPdf := mimeType == "application/pdf"
  let isDocument := strIncludes mimeType "document" || strIncludes mimeType "spreadsheet" ||
    strIncludes mimeType "presentation" || mimeType == "application/msword" ||
    mimeType == "application/vnd.ms-excel" || mimeType == "application/vnd.ms-powerpoint"
  let isText := strStartsWith mimeType "text/"
  let isCodeOrStructuredText := mimeType == "application/javascript" ||
    mimeType == "application/json" || mimeType == "application/xml"
  let isStickerOrAnimation := strIncludes mimeType "image/webp" ||
    strIncludes mimeType "video/" || strIncludes mimeType "animation/"
  let canProcess := isCapableModel &&
    (isImage || isVideo || isAudio || isPdf || isDocument || isText ||
     isCodeOrStructuredText || isStickerOrAnimation)
  let useInlineData := isImage && isCapableModel
  let useFileAPI := isCapableModel &&
    (isPdf || isVideo || isAudio || isDocument || isText || isCodeOrStructuredText ||
     isStickerOrAnimation || (isImage && !useInlineData))
  let isSupported := isImage || isVideo || isAudio || isPdf || isDocument || isText ||
    isCodeOrStructuredText || isStickerOrAnimation
  let recommendation := if !isCapableModel then "upgrade_model" else "supported"
  { canProcess := canProcess
    useInlineData := useInlineData
    useFileAPI := useFileAPI
    isSupported := isSupported
    recommendation := recommendation }

/-- A Gemini File API file object as far as the source inspects it. -/
structure GFile where
  name : String
  uri : String
  state : String
  mimeType : String
deriving DecidableEq

/-- Normalised outcome of uploadFileToGemini (src/app.js lines 893-942). -/
inductive UploadResult where
  | success (file : GFile)
  | failure (error : String) (details : String)
deriving DecidableEq

/-- Number of polling attempts allowed by uploadFileToGemini
(src/app.js line 915). -/
def maxPollAttempts : Nat := 12

/-- Fixed inter-poll delay in seconds (src/app.js line 917). -/
def pollDelaySeconds : Nat := 5

/-- The polling loop of uploadFileToGemini (src/app.js lines 914-921): while
the file state is PROCESSING and attempts remain, wait five seconds, fetch the
file again and count the attempt.  The stream argument gives the file object
returned by the k-th getFile call; the returned number is the count of getFile
calls performed. -/
def pollLoop : Nat → GFile → (Nat → GFile) → Nat → GFile × Nat
  | 0, f, _, attempts => (f, attempts)
  | fuel + 1, f, stream, attempts =>
    if f.state = "PROCESSING" then pollLoop fuel (stream attempts) stream (attempts + 1)
    else (f, attempts)

/-- The post-upload part of uploadFileToGemini (src/app.js lines 905-933):
poll while PROCESSING, then dispatch on the final state, returning the staged
file on ACTIVE, a processing_failed error on FAILED and a timeout error
otherwise, together with the number of polls performed. -/
def uploadFileProcess (f0 : GFile) (stream : Nat → GFile) : UploadResult × Nat :=
  let p := if f0.state = "PROCESSING" then pollLoop maxPollAttempts f0 stream 0 else (f0, 0)
  let f := p.1
  let r :=
    if f.state = "ACTIVE" then UploadResult.success f
    else if f.state = "FAILED" then
      UploadResult.failure "processing_failed" ("File state: " ++ f.state)
    else
      UploadResult.failure "processing_timeout_or_unexpected_state" ("File state: " ++ f.state)
  (r, p.2)

/-! ### ProviderGateway: response shape and reply extraction -/

/-- One part of a response candidate; only an optional text field is
inspected by the source. -/
structure RespPart where
  text : Option String
deriving DecidableEq

/-- One response candidate; the source reads candidates[0].content.parts. -/
structure Candidate where
  parts : List RespPart
deriving DecidableEq

/-- Usage metadata of a generate call, with the optional token counts the
source reads. -/
structure UsageMetadata where
  promptTokenCount : Option Nat
  candidatesTokenCount : Option Nat
  totalTokenCount : Option Nat
deriving DecidableEq

/-- A generate response as far as the source inspects it. -/
structure GenResponse where
  candidates : List Candidate
  usageMetadata : Option UsageMetadata
deriving DecidableEq

/-- Static fallback set when the response carries no candidates or no parts
(src/app.js line 1402). -/
def fallbackNoTextReply : String := "Не удалось получить текстовый ответ от Gemini."

/-- Reply-text extraction of the handler (src/app.js lines 1395-1403): when
the first candidate has a nonempty parts list, concatenate its defined text
fields; otherwise use the static fallback notice. -/
def extractResponseText (r : GenResponse) : String :=
  match r.candidates with
  | [] => fallbackNoTextReply
  | c :: _ =>
    if c.parts.isEmpty then fallbackNoTextReply
    else String.join (c.parts.filterMap RespPart.text)

/-! ### ConversationState: history updates -/

/-- History truncation applied after every push (src/app.js lines 1441-1444):
when the history exceeds twenty entries keep only the last twenty. -/
def truncateHistory (h : List Turn) : List Turn :=
  if h.length > 20 then h.drop (h.length - 20) else h

/-- Success-path history update (src/app.js lines 1429-1444): push the user
turn, push a model turn carrying the reply text when it does not trim to the
empty string and the empty placeholder otherwise, then truncate. -/
def successHistoryUpdate (h : List Turn) (userParts : List CPart) (replyText : String) : List Turn :=
  truncateHistory (h ++
    [{ role := Role.user, parts := userParts },
     { role := Role.model, parts := [CPart.text (if jsBlank replyText then "" else replyText)] }])

/-- Error-path history update of the final draft (src/app.js lines
1461-1470): when the user parts are nonempty, push only the user turn and
truncate; the history is never cleared. -/
def errorHistoryUpdateFinal (h : List Turn) (userParts : List CPart) : List Turn :=
  if 0 < userParts.length then truncateHistory (h ++ [{ role := Role.user, parts := userParts }])
  else h

/-- Error message marker that triggers the history clear in the first draft
(src/app.js line 515). -/
def partsErrorMarker : String := "contents.parts must not be empty"

/-- Error-path history update of the first draft (src/app.js lines 510-535):
clear the history when the API error message includes the parts-error marker,
then push the user turn and truncate.  The JS push guard is
(parts.length greater than 0 and history.length equals 0) or
history[last].parts not reference-equal to parts; a freshly built parts array
is never reference-identical to a stored one, so for a nonempty history the
second disjunct is always true and the guard reduces to the form below. -/
def errorHistoryUpdateDraft1 (h : List Turn) (userParts : List CPart) (apiMsg : Option String) : List Turn :=
  let h0 := match apiMsg with
    | some m => if strIncludes m partsErrorMarker then [] else h
    | none => h
  if (0 < userParts.length ∧ h0 = []) ∨ h0 ≠ [] then
    truncateHistory (h0 ++ [{ role := Role.user, parts := userParts }])
  else h0

/-- Base text of every provider-error reply (src/app.js line 1449). -/
def errorReplyBase : String := "Произошла ошибка при обращении к Gemini API."

/-- User guidance appended by the first draft on a parts error
(src/app.js line 516). -/
def newChatAdvice : String :=
  "\nВозможно, проблема с форматом сообщения или историей. Начните новый чат командой /newchat."

/-- Error reply of the final draft (src/app.js lines 1447-1459): the base
text plus the API or plain error message when available; no recovery advice
is ever appended. -/
def finalDraftErrorReply (apiMsg plainMsg : Option String) : String :=
  match apiMsg with
  | some m => errorReplyBase ++ " Ошибка API: " ++ m
  | none =>
    match plainMsg with
    | some m => errorReplyBase ++ " Ошибка: " ++ m
    | none => errorReplyBase

/-- Error reply of the first draft (src/app.js lines 506-523): as the final
draft, but with the new-chat guidance appended when the API message includes
the parts-error marker. -/
def draft1ErrorReply (apiMsg plainMsg : Option String) : String :=
  match apiMsg with
  | some m =>
    let r := errorReplyBase ++ " Ошибка API: " ++ m
    if strIncludes m partsErrorMarker then r ++ newChatAdvice else r
  | none =>
    match plainMsg with
    | some m => errorReplyBase ++ " Ошибка: " ++ m
    | none => errorReplyBase

/-! ### TurnBuilder: text extraction and attachment processing -/

/-- Placeholder pushed when the Telegram download fails
(src/app.js line 1238). -/
def downloadFailedMsg : String := "[Не удалось скачать файл из Telegram.]"

/-- Placeholder pushed when the File API upload or processing fails
(src/app.js line 1288). -/
def uploadFailedMsg (mime reason : String) : String :=
  "[Не удалось обработать файл (" ++ mime ++ ") для Gemini File API. Причина: " ++ reason ++ ".]"

/-- Placeholder pushed for an unsupported type, with the upgrade advice when
the strategy recommends it (src/app.js lines 1294-1298). -/
def unsupportedMediaMsg (mime currentModel recommendation : String) : String :=
  "[Файл типа " ++ mime ++ " не поддерживается выбранной моделью (" ++ currentModel ++
  ") или методом обработки.]" ++
  (if recommendation == "upgrade_model" then
    " Для лучшей поддержки попробуйте выбрать более мощную модель, например, \x27pro2.5\x27 или \x27flash2.5\x27."
  else "")

/-- Attachment processing of the handler (src/app.js lines 1233-1301) as a
function of the download outcome and the upload outcome: a failed download,
a failed upload and an unsupported type each contribute exactly one synthetic
text part; an inline image contributes an inline-data part (the base64
conversion of a buffer cannot fail, so the catch branch of line 1268 is
unreachable in this model) and a staged upload a file-data part. -/
def attachmentParts (download : Option (List Nat)) (fileName currentModel : String)
    (upload : UploadResult) : List CPart :=
  match download with
  | none => [CPart.text downloadFailedMsg]
  | some buf =>
    let mime := detectMimeType buf fileName
    let strat := getFileProcessingStrategy mime currentModel
    if strat.canProcess then
      if strat.useInlineData then [CPart.inlineData mime (base64encode buf)]
      else if strat.useFileAPI then
        match upload with
        | UploadResult.success f => [CPart.fileData f.mimeType f.name]
        | UploadResult.failure reason _ => [CPart.text (uploadFailedMsg mime reason)]
      else []
    else [CPart.text (unsupportedMediaMsg mime currentModel strat.recommendation)]

/-- Text extraction of the handler (src/app.js lines 1165-1175): the message
text when present, else the caption when present, else nothing. -/
def extractTextParts (text caption : Option String) : List CPart :=
  match text with
  | some t => [CPart.text t]
  | none =>
    match caption with
    | some c => [CPart.text c]
    | none => []

/-! ### TurnOrchestrator: the message handler -/

/-- An incoming update as far as the handler consumes it: optional text,
optional caption, and an optional attachment reference with its derived file
name. -/
structure Attachment where
  fileId : String
  fileName : String
deriving DecidableEq

/-- An incoming Telegram update restricted to the fields the handler reads. -/
structure Update where
  text : Option String
  caption : Option String
  attachment : Option Attachment
deriving DecidableEq

/-- Outcome of the generate call: a response object, or a raised error with
the optional API message and optional plain message the source inspects. -/
inductive ProviderOutcome where
  | ok (resp : GenResponse)
  | error (apiMsg : Option String) (plainMsg : Option String)
deriving DecidableEq

/-- Environment of one handler run: outcomes of the external collaborators.
countTokens is none when the token-count call throws. -/
structure IOEnv where
  download : Option (List Nat)
  upload : UploadResult
  outcome : ProviderOutcome
  countTokens : Option Nat
deriving DecidableEq

/-- Static notice for a completely unhandled update kind
(src/app.js line 1311). -/
def unsupportedNotice : String :=
  "Извините, я пока умею обрабатывать для ответа через Gemini только текст, фото, видео, документы (включая PDF), голосовые сообщения, видео-сообщения, аудио, анимации и стикеры (при условии поддержки выбранной моделью)."

/-- Fallback notice when a file yielded no parts (src/app.js line 1315). -/
def processingProblemNotice : String :=
  "Извините, возникла проблема с обработкой вашего сообщения."

/-- Static fallback sent when the final reply text is blank
(src/app.js line 1493). -/
def emptyReplyFallback : String :=
  "Не удалось сгенерировать ответ. Попробуйте еще раз или измените запрос/настройки."

/-- Final reply selection (src/app.js lines 1487-1500): a blank reply is
replaced by the static fallback unless it already starts with the error
base. -/
def finalReplyText (r : String) : String :=
  if jsBlank r then (if !(strStartsWith r "Произошла ошибка") then emptyReplyFallback else r)
  else r

/-- Result of one handler run: the new session, whether the generate call was
made, and the reply sent (none when the update was a command and ignored). -/
structure HandlerResult where
  session : Session
  providerCalled : Bool
  reply : Option String
deriving DecidableEq

/-- The parts array built for the current user turn
(src/app.js lines 1162-1301). -/
def buildUserParts (u : Update) (env : IOEnv) (currentModel : String) : List CPart :=
  extractTextParts u.text u.caption ++
    (match u.attachment with
     | none => []
     | some a => attachmentParts env.download a.fileName currentModel env.upload)

/-- Token-count increment of the success path (src/app.js lines 1405-1427):
the usage-metadata total when present, else the countTokens estimate, else
zero when counting fails. -/
def tokensAdded (resp : GenResponse) (countTokens : Option Nat) : Nat :=
  match resp.usageMetadata with
  | some um => um.totalTokenCount.getD 0
  | none => countTokens.getD 0

/-- Embedding of the final-draft message handler
(src/app.js lines 1155-1504): command messages are ignored; an update that
yields no parts is answered with a static notice and mutates nothing; a
successful generate call updates history and the token counter; a failed call
appends only the user turn. -/
def handleUpdate (s : Session) (u : Update) (env : IOEnv) : HandlerResult :=
  if (match u.text with | some t => strStartsWith t "/" | none => false) then
    { session := s, providerCalled := false, reply := none }
  else
    let parts := buildUserParts u env s.model
    if parts.isEmpty then
      if u.text.isNone && u.caption.isNone && u.attachment.isNone then
        { session := s, providerCalled := false, reply := some unsupportedNotice }
      else
        { session := s, providerCalled := false, reply := some processingProblemNotice }
    else
      match env.outcome with
      | ProviderOutcome.ok resp =>
        let replyText := extractResponseText resp
        { session :=
            { s with
              history := successHistoryUpdate s.history parts replyText
              totalTokens := s.totalTokens + tokensAdded resp env.countTokens }
          providerCalled := true
          reply := some (finalReplyText replyText) }
      | ProviderOutcome.error apiMsg plainMsg =>
        { session := { s with history := errorHistoryUpdateFinal s.history parts }
          providerCalled := true
          reply := some (finalReplyText (finalDraftErrorReply apiMsg plainMsg)) }

/-! ### User-facing settings commands (src/app.js lines 1075-1151) -/

/-- The newchat command (src/app.js lines 1076-1080): clears the history and
resets the system instruction. -/
def cmdNewChat (s : Session) : Session :=
  { s with history := [], systemInstruction := none }

/-- The setsysteminstruction command (src/app.js lines 1083-1092), applied to
the trimmed argument text. -/
def cmdSetSystemInstruction (s : Session) (arg : String) : Session :=
  if jsTrim arg ≠ "" then { s with systemInstruction := some (jsTrim arg) }
  else { s with systemInstruction := none }

/-- The toggletalkmode command (src/app.js lines 1095-1098). -/
def cmdToggleTalkMode (s : Session) : Session :=
  { s with talkMode := !s.talkMode }

/-- The toggleurlcontext command (src/app.js lines 1102-1105). -/
def cmdToggleUrlContext (s : Session) : Session :=
  { s with urlContext := !s.urlContext }

/-- The togglegrounding command (src/app.js lines 1108-1111). -/
def cmdToggleGrounding (s : Session) : Session :=
  { s with googleSearch := !s.googleSearch }

/-- Model aliases of the final draft (src/app.js lines 738-747). -/
def MODEL_ALIASES : List (String × String) :=
  [("04-17", "flash-04-17"), ("05-20", "flash-05-20"), ("pro-05-06", "pro-05-06"),
   ("flash", "flash-2.0"), ("flash-lite", "flash-lite-2.0"), ("default", "pro-05-06"),
   ("flash2.5", "flash-05-20"), ("pro2.5", "pro-05-06")]

/-- Available models of the final draft (src/app.js lines 729-735). -/
def AVAILABLE_MODELS : List (String × String) :=
  [("flash-04-17", "gemini-2.5-flash-preview-04-17"),
   ("flash-05-20", "gemini-2.5-flash-preview-05-20"),
   ("pro-05-06", "gemini-2.5-pro-preview-05-06"),
   ("flash-2.0", "gemini-2.0-flash"),
   ("flash-lite-2.0", "gemini-2.0-flash-lite")]

/-- Lookup in an association list of strings. -/
def lookupStr (l : List (String × String)) (k : String) : Option String :=
  (l.find? (fun p => p.1 == k)).map Prod.snd

/-- The setmodel command (src/app.js lines 1114-1144), applied to the
trimmed, lower-cased argument; an empty or unknown alias leaves the session
unchanged. -/
def cmdSetModel (s : Session) (arg : String) : Session :=
  let modelName := (jsTrim arg).toLower
  if modelName == "" then s
  else
    match lookupStr MODEL_ALIASES modelName with
    | none => s
    | some aliasKey =>
      match lookupStr AVAILABLE_MODELS aliasKey with
      | none => s
      | some api => { s with model := api }

/-! ### Turn outcomes over one history (for the sequence invariants) -/

/-- Outcome of one processed update as it affects the history: a provider
call that returned (reply text possibly empty), or a provider call that
raised. -/
inductive TurnOutcome where
  | success (userParts : List CPart) (replyText : String)
  | failure (userParts : List CPart)
deriving DecidableEq

/-- History transition of one processed update in the final draft. -/
def applyOutcome (h : List Turn) : TurnOutcome → List Turn
  | TurnOutcome.success ps r => successHistoryUpdate h ps r
  | TurnOutcome.failure ps => errorHistoryUpdateFinal h ps

/-- The turns an outcome appends before truncation. -/
def appendedTurns : TurnOutcome → List Turn
  | TurnOutcome.success ps r =>
    [{ role := Role.user, parts := ps },
     { role := Role.model, parts := [CPart.text (if jsBlank r then "" else r)] }]
  | TurnOutcome.failure ps =>
    if 0 < ps.length then [{ role := Role.user, parts := ps }] else []

/-- The alternation property of the spec: the turn at every index below the
length is a user turn exactly when the index is even. -/
def AlternationHolds (h : List Turn) : Prop :=
  ∀ i, i < h.length → ((h.getD i { role := Role.model, parts := [] }).role = Role.user ↔ i % 2 = 0)

instance (h : List Turn) : Decidable (AlternationHolds h) := by
  unfold AlternationHolds; infer_instance

/-! ### Helper lemmas -/

theorem truncateHistory_length (h : List Turn) : (truncateHistory h).length = min h.length 20 := by
  unfold truncateHistory
  split
  · simp [List.length_drop]; omega
  · omega

theorem truncateHistory_suffix (h : List Turn) : truncateHistory h <:+ h := by
  unfold truncateHistory
  split
  · exact List.drop_suffix _ _
  · exact List.suffix_refl _

theorem truncateHistory_getLast? (h : List Turn) :
    (truncateHistory h).getLast? = h.getLast? := by
  unfold truncateHistory
  split
  · next hlen =>
    rw [List.getLast?_eq_getElem?, List.getLast?_eq_getElem?, List.getElem?_drop,
      List.length_drop]
    congr 1
    omega
  · rfl

theorem alt_append_pair (h : List Turn) (hA : AlternationHolds h) (he : h.length % 2 = 0)
    (p q : List CPart) :
    AlternationHolds
      (h ++ [{ role := Role.user, parts := p }, { role := Role.model, parts := q }]) := by
  intro i hi
  rw [List.getD_eq_getElem?_getD, List.getElem?_append]
  by_cases hlt : i < h.length
  · rw [if_pos hlt]
    have hiff := hA i hlt
    rwa [List.getD_eq_getElem?_getD] at hiff
  · have hge : h.length ≤ i := Nat.le_of_not_lt hlt
    rw [if_neg hlt]
    have hcase : i - h.length = 0 ∨ i - h.length = 1 := by
      simp only [List.length_append, List.length_cons, List.length_nil] at hi
      omega
    cases hcase with
    | inl h0 =>
      rw [h0]
      simp only [List.getElem?_cons_zero, Option.getD_some]
      constructor
      · intro _; omega
      · intro _; trivial
    | inr h1 =>
      rw [h1]
      simp only [List.getElem?_cons_succ, List.getElem?_cons_zero, Option.getD_some]
      constructor
      · intro hcontra; exact absurd hcontra (by simp)
      · intro hmod; omega

theorem alt_drop (h : List Turn) (hA : AlternationHolds h) (n : Nat) (hn : n % 2 = 0) :
    AlternationHolds (h.drop n) := by
  intro i hi
  rw [List.length_drop] at hi
  have hlt : n + i < h.length := by omega
  rw [List.getD_eq_getElem?_getD, List.getElem?_drop]
  have hiff := hA (n + i) hlt
  rw [List.getD_eq_getElem?_getD] at hiff
  rw [hiff]
  omega

theorem alt_truncate (h : List Turn) (hA : AlternationHolds h) (he : h.length % 2 = 0) :
    AlternationHolds (truncateHistory h) := by
  unfold truncateHistory
  split
  · exact alt_drop h hA _ (by omega)
  · exact hA

theorem successUpdate_alt (h : List Turn) (p : List CPart) (r : String)
    (hA : AlternationHolds h) (he : h.length % 2 = 0) :
    AlternationHolds (successHistoryUpdate h p r) ∧
    (successHistoryUpdate h p r).length % 2 = 0 := by
  unfold successHistoryUpdate
  refine ⟨alt_truncate _ (alt_append_pair h hA he p _) (by simp; omega), ?_⟩
  rw [truncateHistory_length]
  simp
  omega

theorem foldl_success_alt (ops : List (List CPart × String)) :
    ∀ h : List Turn, AlternationHolds h → h.length % 2 = 0 →
      AlternationHolds (ops.foldl (fun h op => successHistoryUpdate h op.1 op.2) h) ∧
      (ops.foldl (fun h op => successHistoryUpdate h op.1 op.2) h).length % 2 = 0 := by
  induction ops with
  | nil => intro h hA he; exact ⟨hA, he⟩
  | cons op rest ih =>
    intro h hA he
    rw [List.foldl_cons]
    obtain ⟨hA2, he2⟩ := successUpdate_alt h op.1 op.2 hA he
    exact ih _ hA2 he2

theorem applyOutcome_le (h : List Turn) (o : TurnOutcome) (hle : h.length ≤ 20) :
    (applyOutcome h o).length ≤ 20 ∧ applyOutcome h o <:+ (h ++ appendedTurns o) := by
  cases o with
  | success ps r =>
    simp only [applyOutcome, appendedTurns, successHistoryUpdate]
    constructor
    · rw [truncateHistory_length]; omega
    · exact truncateHistory_suffix _
  | failure ps =>
    simp only [applyOutcome, appendedTurns, errorHistoryUpdateFinal]
    split
    · constructor
      · rw [truncateHistory_length]; omega
      · exact truncateHistory_suffix _
    · constructor
      · exact hle
      · simp

theorem foldl_apply_le (ops : List TurnOutcome) :
    ∀ h : List Turn, h.length ≤ 20 → (ops.foldl applyOutcome h).length ≤ 20 := by
  induction ops with
  | nil => intro h hle; exact hle
  | cons o rest ih =>
    intro h hle
    rw [List.foldl_cons]
    exact ih _ (applyOutcome_le h o hle).1

/-! ### Claim C1: history alternation -/

/-- C1 (amended): for every sequence of provider calls that all return
(reply text possibly empty), after each success or empty-reply history update
the turn at index i is a user turn exactly when i is even.  The original
claim, which also admits provider failures in the sequence, is refuted by
C1_alternation_counterexample: the failure path appends an unpaired user
turn, after which the next successful append violates the alternation. -/
theorem C1_alternation_failure_free (ops : List (List CPart × String)) :
    AlternationHolds (ops.foldl (fun h op => successHistoryUpdate h op.1 op.2) []) :=
  (foldl_success_alt ops [] (by intro i hi; simp at hi) (by simp)).1

/-- C1 counterexample: starting from the empty history, a failed provider
call (which appends only the user turn) followed by a successful call leaves
the history user, user, model, so directly after a successful-append the
index-1 entry is a user turn at an odd index, refuting the claim for
sequences that contain failures. -/
theorem C1_alternation_counterexample :
    ¬ AlternationHolds
      (applyOutcome (applyOutcome [] (TurnOutcome.failure [CPart.text "a"]))
        (TurnOutcome.success [CPart.text "b"] "Hi")) := by decide

/-! ### Claim C2: bounded history with FIFO eviction -/

/-- C2: on both the provider-success path and the provider-failure path,
starting from a history of at most twenty turns the updated history again has
at most twenty turns and is a suffix of the old history with the new turns
appended (so only the oldest entries are evicted, FIFO); consequently every
history reachable from the empty one by any sequence of outcomes stays within
the bound after every mutation. -/
theorem C2_bounded_history :
    (∀ (h : List Turn) (o : TurnOutcome), h.length ≤ 20 →
      (applyOutcome h o).length ≤ 20 ∧ applyOutcome h o <:+ (h ++ appendedTurns o)) ∧
    (∀ ops : List TurnOutcome, (ops.foldl applyOutcome []).length ≤ 20) :=
  ⟨applyOutcome_le, fun ops => foldl_apply_le ops [] (by simp)⟩

/-- C2 witness at a concrete input. -/
theorem C2_bounded_history_witness :
    (applyOutcome [] (TurnOutcome.success [CPart.text "Hello"] "Hi")).length ≤ 20 ∧
    applyOutcome [] (TurnOutcome.success [CPart.text "Hello"] "Hi") <:+
      ([] ++ appendedTurns (TurnOutcome.success [CPart.text "Hello"] "Hi")) :=
  C2_bounded_history.1 [] (TurnOutcome.success [CPart.text "Hello"] "Hi") (by decide)

theorem successUpdate_getLast (h : List Turn) (p : List CPart) (r : String) :
    (successHistoryUpdate h p r).getLast? =
      some { role := Role.model, parts := [CPart.text (if jsBlank r then "" else r)] } := by
  unfold successHistoryUpdate
  rw [truncateHistory_getLast?]
  rw [show [{ role := Role.user, parts := p },
      ({ role := Role.model, parts := [CPart.text (if jsBlank r then "" else r)] } : Turn)] =
      [{ role := Role.user, parts := p }] ++
      [({ role := Role.model, parts := [CPart.text (if jsBlank r then "" else r)] } : Turn)] from rfl,
    ← List.append_assoc]
  exact List.getLast?_concat _

/-! ### Claim C3: empty replies from a non-raising provider call -/

/-- C3 (amended): when the generate call returns without raising, the call is
treated as success: the user turn is appended followed by exactly one model
turn, so the history never ends on a user turn.  The model turn holds the
empty placeholder text exactly when the extracted reply trims to the empty
string, which happens when the first candidate has parts but they yield an
empty concatenation; when the response has no candidates, or the first
candidate has an empty parts list, the extracted reply is instead the
non-empty static no-text notice, and that notice (not the empty string) is
what the model turn carries.  The original claim, that the model turn part is
the empty string also in the no-candidates case, is refuted by
C3_empty_reply_counterexample. -/
theorem C3_empty_reply_handling (h : List Turn) (parts : List CPart) (resp : GenResponse) :
    (successHistoryUpdate h parts (extractResponseText resp)).getLast? =
      some { role := Role.model,
             parts := [CPart.text (if jsBlank (extractResponseText resp) then ""
                                   else extractResponseText resp)] } ∧
    (resp.candidates = [] → extractResponseText resp = fallbackNoTextReply) ∧
    (∀ c cs, resp.candidates = c :: cs → c.parts = [] →
      extractResponseText resp = fallbackNoTextReply) ∧
    (∀ c cs, resp.candidates = c :: cs → c.parts ≠ [] →
      extractResponseText resp = String.join (c.parts.filterMap RespPart.text)) ∧
    fallbackNoTextReply ≠ "" := by
  refine ⟨successUpdate_getLast h parts _, ?_, ?_, ?_, by decide⟩
  · intro hnil
    unfold extractResponseText
    rw [hnil]
  · intro c cs hcons hparts
    unfold extractResponseText
    rw [hcons]
    simp [hparts]
  · intro c cs hcons hparts
    unfold extractResponseText
    rw [hcons]
    simp [hparts]

/-- C3 counterexample: on a response with no candidates the success-path
update appends a model turn carrying the static no-text notice, not the empty
placeholder the claim states. -/
theorem C3_empty_reply_counterexample :
    successHistoryUpdate [] [CPart.text "q"]
        (extractResponseText { candidates := [], usageMetadata := none }) ≠
      [{ role := Role.user, parts := [CPart.text "q"] },
       { role := Role.model, parts := [CPart.text ""] }] ∧
    successHistoryUpdate [] [CPart.text "q"]
        (extractResponseText { candidates := [], usageMetadata := none }) =
      [{ role := Role.user, parts := [CPart.text "q"] },
       { role := Role.model, parts := [CPart.text fallbackNoTextReply] }] := by
  decide

/-- C3 witness at concrete inputs: a candidate whose parts join to the empty
string yields the empty placeholder, and an empty candidate list yields the
static notice. -/
theorem C3_empty_reply_witness :
    (successHistoryUpdate [] [CPart.text "q"]
        (extractResponseText
          { candidates := [{ parts := [{ text := some "" }] }], usageMetadata := none })).getLast? =
      some { role := Role.model, parts := [CPart.text ""] } ∧
    extractResponseText { candidates := [], usageMetadata := none } = fallbackNoTextReply := by
  constructor
  · exact (C3_empty_reply_handling [] [CPart.text "q"]
      { candidates := [{ parts := [{ text := some "" }] }], usageMetadata := none }).1.trans
      (by decide)
  · exact (C3_empty_reply_handling [] [] { candidates := [], usageMetadata := none }).2.1 rfl

theorem toList_append (s t : String) : (s ++ t).toList = s.toList ++ t.toList := by
  cases s; cases t; rfl

theorem containsSeq_append_right [BEq α] (needle a : List α) :
    ∀ b : List α, containsSeq needle b = true → containsSeq needle (a ++ b) = true := by
  induction a with
  | nil => intro b hb; simpa using hb
  | cons x rest ih =>
    intro b hb
    show containsSeq needle (x :: (rest ++ b)) = true
    unfold containsSeq
    rw [Bool.or_eq_true]
    exact Or.inr (ih b hb)

theorem strIncludes_append_right (s t pat : String) (h : strIncludes t pat = true) :
    strIncludes (s ++ t) pat = true := by
  unfold strIncludes at *
  rw [toList_append]
  exact containsSeq_append_right _ _ _ h

/-! ### Claim C4: the parts-error recovery path -/

/-- C4 (amended): only the first-draft handler reacts specially to a
parts-must-not-be-empty provider error: it clears the history and its reply
carries the guidance to start a new chat, but its append guard then still
pushes the current user turn, so the history ends at exactly that single user
turn (length one, not zero).  The final-draft handler treats such an error
like every other provider failure: the history is not cleared and only the
user turn is appended.  The original claim, that the history is cleared to
length zero, is refuted by C4_parts_error_counterexample. -/
theorem C4_parts_error_recovery (h : List Turn) (userParts : List CPart) (m : String)
    (hne : userParts ≠ []) (hmark : strIncludes m partsErrorMarker = true) :
    errorHistoryUpdateDraft1 h userParts (some m) =
      [{ role := Role.user, parts := userParts }] ∧
    strIncludes (draft1ErrorReply (some m) none) "Начните новый чат командой /newchat" = true ∧
    errorHistoryUpdateFinal h userParts =
      truncateHistory (h ++ [{ role := Role.user, parts := userParts }]) := by
  have hpos : 0 < userParts.length := List.length_pos.mpr hne
  refine ⟨?_, ?_, ?_⟩
  · show (let h0 := if strIncludes m partsErrorMarker = true then [] else h
      if (0 < userParts.length ∧ h0 = []) ∨ h0 ≠ [] then
        truncateHistory (h0 ++ [{ role := Role.user, parts := userParts }])
      else h0) = [{ role := Role.user, parts := userParts }]
    rw [if_pos hmark]
    rw [if_pos (Or.inl ⟨hpos, rfl⟩)]
    unfold truncateHistory
    rw [if_neg (by simp)]
    simp
  · show strIncludes
      (let r := errorReplyBase ++ " Ошибка API: " ++ m
       if strIncludes m partsErrorMarker = true then r ++ newChatAdvice else r)
      "Начните новый чат командой /newchat" = true
    rw [if_pos hmark]
    have hadv : newChatAdvice =
        "\nВозможно, проблема с форматом сообщения или историей. " ++
        "Начните новый чат командой /newchat." := by decide
    rw [hadv, ← String.append_assoc]
    have hbase : strIncludes "Начните новый чат командой /newchat."
        "Начните новый чат командой /newchat" = true := by decide
    exact strIncludes_append_right _ _ _ hbase
  · unfold errorHistoryUpdateFinal
    rw [if_pos hpos]

/-- C4 counterexample: after a parts-must-not-be-empty error with a nonempty
current user turn and a two-turn prior history, the first-draft handler
leaves the history at length one and the final-draft handler at length three;
neither leaves it at the length zero the claim states. -/
theorem C4_parts_error_counterexample :
    (errorHistoryUpdateDraft1
      [{ role := Role.user, parts := [CPart.text "hi"] },
       { role := Role.model, parts := [CPart.text "yo"] }]
      [CPart.text "x"]
      (some "Invalid argument: contents.parts must not be empty")).length = 1 ∧
    (errorHistoryUpdateFinal
      [{ role := Role.user, parts := [CPart.text "hi"] },
       { role := Role.model, parts := [CPart.text "yo"] }]
      [CPart.text "x"]).length = 3 := by
  decide

/-- C4 witness at a concrete input. -/
theorem C4_parts_error_witness :
    errorHistoryUpdateDraft1
      [{ role := Role.user, parts := [CPart.text "hi"] },
       { role := Role.model, parts := [CPart.text "yo"] }]
      [CPart.text "x"]
      (some "Invalid argument: contents.parts must not be empty") =
      [{ role := Role.user, parts := [CPart.text "x"] }] :=
  (C4_parts_error_recovery
    [{ role := Role.user, parts := [CPart.text "hi"] },
     { role := Role.model, parts := [CPart.text "yo"] }]
    [CPart.text "x"] "Invalid argument: contents.parts must not be empty"
    (by decide) (by decide)).1

theorem boolRoute (A I V Au P D T C St : Bool) :
    (A && (I || V || Au || P || D || T || C || St)) = true →
    (I && A) = true ∨
    (A && (P || V || Au || D || T || C || St || (I && !(I && A)))) = true := by
  cases A <;> cases I <;> cases V <;> cases Au <;> cases P <;> cases D <;> cases T <;>
    cases C <;> cases St <;> decide

theorem strategy_route (mime currentModel : String)
    (hc : (getFileProcessingStrategy mime currentModel).canProcess = true) :
    (getFileProcessingStrategy mime currentModel).useInlineData = true ∨
    (getFileProcessingStrategy mime currentModel).useFileAPI = true := by
  unfold getFileProcessingStrategy at *
  exact boolRoute _ _ _ _ _ _ _ _ _ hc

theorem attachmentParts_length (d : Option (List Nat)) (fn currentModel : String)
    (u : UploadResult) :
    (attachmentParts d fn currentModel u).length = 1 := by
  cases d with
  | none => rfl
  | some buf =>
    show (let mime := detectMimeType buf fn
      let strat := getFileProcessingStrategy mime currentModel
      if strat.canProcess then
        if strat.useInlineData then [CPart.inlineData mime (base64encode buf)]
        else if strat.useFileAPI then
          match u with
          | UploadResult.success f => [CPart.fileData f.mimeType f.name]
          | UploadResult.failure reason _ => [CPart.text (uploadFailedMsg mime reason)]
        else []
      else [CPart.text (unsupportedMediaMsg mime currentModel strat.recommendation)]).length = 1
    by_cases hcp : (getFileProcessingStrategy (detectMimeType buf fn) currentModel).canProcess = true
    · rw [if_pos hcp]
      by_cases hin : (getFileProcessingStrategy (detectMimeType buf fn) currentModel).useInlineData = true
      · rw [if_pos hin]; rfl
      · rw [if_neg hin]
        have hfa : (getFileProcessingStrategy (detectMimeType buf fn) currentModel).useFileAPI = true := by
          cases strategy_route _ _ hcp with
          | inl hI => exact absurd hI hin
          | inr hF => exact hF
        rw [if_pos hfa]
        cases u <;> rfl
    · rw [if_neg hcp]; rfl

/-! ### Claim C5: staging failures never abort turn construction -/

/-- C5: attachment handling is total and never yields an empty contribution:
a failed download contributes exactly the synthetic download-failure text
part; when the download succeeded and the strategy is not the inline route, a
failed staging contributes exactly one synthetic text part; in every case the
attachment contributes exactly one part, and the built user turn, the caption
text parts followed by the attachment part, is nonempty. -/
theorem C5_staging_fallback (t c : Option String) (fn currentModel r det : String)
    (d : Option (List Nat)) :
    (attachmentParts none fn currentModel (UploadResult.failure r det) =
      [CPart.text downloadFailedMsg]) ∧
    (∀ buf, d = some buf →
      (getFileProcessingStrategy (detectMimeType buf fn) currentModel).useInlineData = false →
      ∃ msg, attachmentParts d fn currentModel (UploadResult.failure r det) = [CPart.text msg]) ∧
    (attachmentParts d fn currentModel (UploadResult.failure r det)).length = 1 ∧
    extractTextParts t c ++ attachmentParts d fn currentModel (UploadResult.failure r det) ≠ [] := by
  refine ⟨rfl, ?_, attachmentParts_length d fn currentModel _, ?_⟩
  · intro buf hd hni
    subst hd
    show ∃ msg, (let mime := detectMimeType buf fn
      let strat := getFileProcessingStrategy mime currentModel
      if strat.canProcess then
        if strat.useInlineData then [CPart.inlineData mime (base64encode buf)]
        else if strat.useFileAPI then
          match UploadResult.failure r det with
          | UploadResult.success f => [CPart.fileData f.mimeType f.name]
          | UploadResult.failure reason _ => [CPart.text (uploadFailedMsg mime reason)]
        else []
      else [CPart.text (unsupportedMediaMsg mime currentModel strat.recommendation)]) =
      [CPart.text msg]
    by_cases hcp : (getFileProcessingStrategy (detectMimeType buf fn) currentModel).canProcess = true
    · have hfa : (getFileProcessingStrategy (detectMimeType buf fn) currentModel).useFileAPI = true := by
        cases strategy_route _ _ hcp with
        | inl hI => exact absurd hI (by rw [hni]; simp)
        | inr hF => exact hF
      refine ⟨uploadFailedMsg (detectMimeType buf fn) r, ?_⟩
      rw [if_pos hcp, if_neg (by rw [hni]; simp), if_pos hfa]
    · refine ⟨unsupportedMediaMsg (detectMimeType buf fn) currentModel
        (getFileProcessingStrategy (detectMimeType buf fn) currentModel).recommendation, ?_⟩
      rw [if_neg hcp]
  · intro heq
    have hlen := congrArg List.length heq
    rw [List.length_append, attachmentParts_length] at hlen
    simp at hlen

/-- C5 witness at a concrete input: a PDF buffer whose staging fails yields a
single synthetic text part. -/
theorem C5_staging_fallback_witness :
    ∃ msg, attachmentParts (some [37, 80, 68, 70]) "doc.pdf" "gemini-2.5-pro-preview-05-06"
      (UploadResult.failure "upload_exception" "network") = [CPart.text msg] :=
  (C5_staging_fallback (some "hi") none "doc.pdf" "gemini-2.5-pro-preview-05-06"
      "upload_exception" "network" (some [37, 80, 68, 70])).2.1
    [37, 80, 68, 70] rfl (by decide)

/-! ### Claim C6: empty-turn rejection -/

/-- C6: on an update with no text, no caption and no attachment, the handler
replies with the static unsupported-message notice, does not call the
provider, and returns the session unchanged in every field (history, system
instruction, model, tool flags, talk mode and token counter alike). -/
theorem C6_empty_turn_rejection (s : Session) (env : IOEnv) :
    handleUpdate s { text := none, caption := none, attachment := none } env =
      { session := s, providerCalled := false, reply := some unsupportedNotice } := rfl

theorem pollLoop_stop (fuel k : Nat) (f : GFile) (stream : Nat → GFile)
    (hs : f.state ≠ "PROCESSING") : pollLoop fuel f stream k = (f, k) := by
  cases fuel with
  | zero => rfl
  | succ fl =>
    unfold pollLoop
    rw [if_neg hs]

theorem pollLoop_attempts (stream : Nat → GFile) :
    ∀ (fuel k : Nat) (f : GFile), (pollLoop fuel f stream k).2 ≤ k + fuel := by
  intro fuel
  induction fuel with
  | zero => intro k f; exact Nat.le_refl _
  | succ fl ih =>
    intro k f
    unfold pollLoop
    split
    · exact Nat.le_trans (ih (k + 1) (stream k)) (by omega)
    · omega

theorem pollLoop_stops (stream : Nat → GFile) :
    ∀ (m fuel k : Nat) (f : GFile), f.state = "PROCESSING" → m < fuel →
      (∀ j, j < m → (stream (k + j)).state = "PROCESSING") →
      (stream (k + m)).state ≠ "PROCESSING" →
      pollLoop fuel f stream k = (stream (k + m), k + m + 1) := by
  intro m
  induction m with
  | zero =>
    intro fuel k f hp hm hall hstop
    rw [Nat.add_zero] at hstop ⊢
    cases fuel with
    | zero => omega
    | succ fl =>
      unfold pollLoop
      rw [if_pos hp]
      exact pollLoop_stop fl (k + 1) (stream k) stream hstop
  | succ m ih =>
    intro fuel k f hp hm hall hstop
    cases fuel with
    | zero => omega
    | succ fl =>
      unfold pollLoop
      rw [if_pos hp]
      have h0 : (stream k).state = "PROCESSING" := by
        have := hall 0 (by omega)
        rwa [Nat.add_zero] at this
      have hall2 : ∀ j, j < m → (stream (k + 1 + j)).state = "PROCESSING" := by
        intro j hj
        have heq : k + 1 + j = k + (j + 1) := by omega
        rw [heq]
        exact hall (j + 1) (by omega)
      have hstop2 : (stream (k + 1 + m)).state ≠ "PROCESSING" := by
        have heq : k + 1 + m = k + (m + 1) := by omega
        rw [heq]
        exact hstop
      have hres := ih fl (k + 1) (stream k) h0 (by omega) hall2 hstop2
      rw [hres]
      have heq : k + 1 + m = k + (m + 1) := by omega
      rw [heq]

/-! ### Claim C7: bounded staged-upload polling -/

/-- C7: the readiness wait performs at most twelve getFile polls at a fixed
five-second spacing (so at most sixty seconds of waiting), and it stops at
the first poll whose state leaves PROCESSING: if the first poll reports
FAILED the staging fails with the processing_failed reason after exactly one
poll cycle, and if the k-th poll (after k processing polls) reports ACTIVE
the staged file object of that poll is returned after exactly k plus one
polls. -/
theorem C7_poll_termination (f0 : GFile) (stream : Nat → GFile) :
    (uploadFileProcess f0 stream).2 ≤ maxPollAttempts ∧
    pollDelaySeconds * (uploadFileProcess f0 stream).2 ≤ 60 ∧
    (f0.state = "PROCESSING" → (stream 0).state = "FAILED" →
      uploadFileProcess f0 stream =
        (UploadResult.failure "processing_failed" ("File state: " ++ (stream 0).state), 1)) ∧
    (f0.state = "PROCESSING" → ∀ k, k < maxPollAttempts →
      (∀ j, j < k → (stream j).state = "PROCESSING") → (stream k).state = "ACTIVE" →
      uploadFileProcess f0 stream = (UploadResult.success (stream k), k + 1)) := by
  have hbound : (uploadFileProcess f0 stream).2 ≤ maxPollAttempts := by
    show (let p := if f0.state = "PROCESSING" then pollLoop maxPollAttempts f0 stream 0 else (f0, 0)
      p.2) ≤ maxPollAttempts
    split
    · exact pollLoop_attempts stream maxPollAttempts 0 f0
    · exact Nat.zero_le _
  refine ⟨hbound, ?_, ?_, ?_⟩
  · rw [show pollDelaySeconds = 5 from rfl]
    unfold maxPollAttempts at hbound
    omega
  · intro hp hf
    unfold uploadFileProcess
    rw [if_pos hp]
    have hrun := pollLoop_stops stream 0 maxPollAttempts 0 f0 hp (by decide)
      (by intro j hj; omega)
      (by rw [Nat.zero_add, hf]; decide)
    rw [Nat.zero_add] at hrun
    rw [hrun]
    dsimp only
    rw [if_neg (by rw [hf]; decide), if_pos hf]
  · intro hp k hk hall hA
    unfold uploadFileProcess
    rw [if_pos hp]
    have hrun := pollLoop_stops stream k maxPollAttempts 0 f0 hp hk
      (by intro j hj; rw [Nat.zero_add]; exact hall j hj)
      (by rw [Nat.zero_add, hA]; decide)
    rw [Nat.zero_add] at hrun
    rw [hrun]
    dsimp only
    rw [if_pos hA]

/-- C7 witness: a file that is PROCESSING after upload and FAILED at the
first poll fails with processing_failed after exactly one poll. -/
theorem C7_poll_termination_witness :
    uploadFileProcess
      { name := "files/x", uri := "u", state := "PROCESSING", mimeType := "application/pdf" }
      (fun _ => { name := "files/x", uri := "u", state := "FAILED", mimeType := "application/pdf" }) =
      (UploadResult.failure "processing_failed" ("File state: " ++ "FAILED"), 1) :=
  (C7_poll_termination
    { name := "files/x", uri := "u", state := "PROCESSING", mimeType := "application/pdf" }
    (fun _ => { name := "files/x", uri := "u", state := "FAILED", mimeType := "application/pdf" })).2.2.1
    rfl rfl

/-! ### Claim C8: MIME detection fallback chain -/

/-- C8 (amended): detectMimeType is a total deterministic function (it is a
pure function of the buffer and filename).  For buffers of at least four
bytes on which no byte-signature pattern matches, it returns the extension
lookup of the filename, falling back to application/octet-stream when the
extension is unknown.  For buffers shorter than four bytes the short-buffer
guard returns application/octet-stream without consulting the filename; the
original claim, which promises the extension fallback for every buffer, is
refuted on short buffers by C8_mime_counterexample. -/
theorem C8_mime_fallback (buffer : List Nat) (fileName : String) :
    (buffer.length < 4 → detectMimeType buffer fileName = "application/octet-stream") ∧
    (4 ≤ buffer.length → sigMatches buffer = false →
      detectMimeType buffer fileName =
        (specExtensionLookup (jsExt fileName)).getD "application/octet-stream") := by
  constructor
  · intro hshort
    unfold detectMimeType
    rw [if_pos hshort]
  · intro h4 hsig
    simp only [sigMatches, Bool.or_eq_false_iff] at hsig
    obtain ⟨hsig, h23⟩ := hsig
    obtain ⟨hsig, h22⟩ := hsig
    obtain ⟨hsig, h21⟩ := hsig
    obtain ⟨hsig, h20⟩ := hsig
    obtain ⟨hsig, h19⟩ := hsig
    obtain ⟨hsig, h18⟩ := hsig
    obtain ⟨hsig, h17⟩ := hsig
    obtain ⟨hsig, h16⟩ := hsig
    obtain ⟨hsig, h15⟩ := hsig
    obtain ⟨hsig, h14⟩ := hsig
    obtain ⟨hsig, h13⟩ := hsig
    obtain ⟨hsig, h12⟩ := hsig
    obtain ⟨hsig, h11⟩ := hsig
    obtain ⟨hsig, h10⟩ := hsig
    obtain ⟨hsig, h9⟩ := hsig
    obtain ⟨hsig, h8⟩ := hsig
    obtain ⟨hsig, h7⟩ := hsig
    obtain ⟨hsig, h6⟩ := hsig
    obtain ⟨hsig, h5⟩ := hsig
    obtain ⟨hsig, h4⟩ := hsig
    obtain ⟨hsig, h3⟩ := hsig
    obtain ⟨h1, h2⟩ := hsig
    unfold detectMimeType
    rw [if_neg (by omega)]
    simp only [h1, h2, h3, h4, h5, h6, h7, h8, h9, h10, h11, h12, h13, h14, h15, h16, h17, h18, h19, h20, h21, h22, h23, Bool.false_or, Bool.false_eq_true, if_false,
      specExtensionLookup, apply_ite (Option.getD · "application/octet-stream"),
      Option.getD_some, Option.getD_none]

/-- C8 counterexample: a two-byte buffer matches no signature and carries a
known pdf extension, yet detectMimeType returns application/octet-stream
instead of the extension lookup result, because the short-buffer guard skips
the extension fallback. -/
theorem C8_mime_counterexample :
    sigMatches [37, 80] = false ∧
    specExtensionLookup (jsExt "x.pdf") = some "application/pdf" ∧
    detectMimeType [37, 80] "x.pdf" = "application/octet-stream" ∧
    detectMimeType [37, 80] "x.pdf" ≠
      (specExtensionLookup (jsExt "x.pdf")).getD "application/octet-stream" := by
  decide

/-- C8 witness: a four-byte all-zero buffer with a pdf extension resolves
through the extension fallback. -/
theorem C8_mime_fallback_witness :
    detectMimeType [0, 0, 0, 0] "report.pdf" =
      (specExtensionLookup (jsExt "report.pdf")).getD "application/octet-stream" :=
  (C8_mime_fallback [0, 0, 0, 0] "report.pdf").2 (by decide) (by decide)


/-! ### Claim C9: settings commands mutate single fields -/

/-- C9 (amended): each settings command leaves every session field unchanged
except the one it sets: the three toggles flip exactly their flag, the
system-instruction command sets or clears exactly the instruction, and the
model command changes at most the model.  The clear-conversation command,
however, mutates exactly two fields: it clears the history and also resets
the system instruction; the original claim of exactly one mutated field is
refuted for it by C9_command_counterexample.  Commands run outside the
message handler and only write the session, so each change is read by the
provider pipeline only on the following turn. -/
theorem C9_command_frame (s : Session) (arg : String) :
    ((cmdToggleTalkMode s).talkMode = !s.talkMode ∧
     (cmdToggleTalkMode s).history = s.history ∧
     (cmdToggleTalkMode s).systemInstruction = s.systemInstruction ∧
     (cmdToggleTalkMode s).model = s.model ∧
     (cmdToggleTalkMode s).urlContext = s.urlContext ∧
     (cmdToggleTalkMode s).googleSearch = s.googleSearch ∧
     (cmdToggleTalkMode s).totalTokens = s.totalTokens) ∧
    ((cmdToggleUrlContext s).urlContext = !s.urlContext ∧
     (cmdToggleUrlContext s).history = s.history ∧
     (cmdToggleUrlContext s).systemInstruction = s.systemInstruction ∧
     (cmdToggleUrlContext s).model = s.model ∧
     (cmdToggleUrlContext s).googleSearch = s.googleSearch ∧
     (cmdToggleUrlContext s).talkMode = s.talkMode ∧
     (cmdToggleUrlContext s).totalTokens = s.totalTokens) ∧
    ((cmdToggleGrounding s).googleSearch = !s.googleSearch ∧
     (cmdToggleGrounding s).history = s.history ∧
     (cmdToggleGrounding s).systemInstruction = s.systemInstruction ∧
     (cmdToggleGrounding s).model = s.model ∧
     (cmdToggleGrounding s).urlContext = s.urlContext ∧
     (cmdToggleGrounding s).talkMode = s.talkMode ∧
     (cmdToggleGrounding s).totalTokens = s.totalTokens) ∧
    ((cmdSetSystemInstruction s arg).systemInstruction =
       (if jsTrim arg ≠ "" then some (jsTrim arg) else none) ∧
     (cmdSetSystemInstruction s arg).history = s.history ∧
     (cmdSetSystemInstruction s arg).model = s.model ∧
     (cmdSetSystemInstruction s arg).urlContext = s.urlContext ∧
     (cmdSetSystemInstruction s arg).googleSearch = s.googleSearch ∧
     (cmdSetSystemInstruction s arg).talkMode = s.talkMode ∧
     (cmdSetSystemInstruction s arg).totalTokens = s.totalTokens) ∧
    ((cmdSetModel s arg).history = s.history ∧
     (cmdSetModel s arg).systemInstruction = s.systemInstruction ∧
     (cmdSetModel s arg).urlContext = s.urlContext ∧
     (cmdSetModel s arg).googleSearch = s.googleSearch ∧
     (cmdSetModel s arg).talkMode = s.talkMode ∧
     (cmdSetModel s arg).totalTokens = s.totalTokens) ∧
    ((cmdNewChat s).history = [] ∧
     (cmdNewChat s).systemInstruction = none ∧
     (cmdNewChat s).model = s.model ∧
     (cmdNewChat s).urlContext = s.urlContext ∧
     (cmdNewChat s).googleSearch = s.googleSearch ∧
     (cmdNewChat s).talkMode = s.talkMode ∧
     (cmdNewChat s).totalTokens = s.totalTokens) := by
  refine ⟨⟨rfl, rfl, rfl, rfl, rfl, rfl, rfl⟩, ⟨rfl, rfl, rfl, rfl, rfl, rfl, rfl⟩,
    ⟨rfl, rfl, rfl, rfl, rfl, rfl, rfl⟩, ?_, ?_, ⟨rfl, rfl, rfl, rfl, rfl, rfl, rfl⟩⟩
  · unfold cmdSetSystemInstruction
    split
    · exact ⟨rfl, rfl, rfl, rfl, rfl, rfl, rfl⟩
    · exact ⟨rfl, rfl, rfl, rfl, rfl, rfl, rfl⟩
  · unfold cmdSetModel
    dsimp only
    split
    · exact ⟨rfl, rfl, rfl, rfl, rfl, rfl⟩
    · split
      · exact ⟨rfl, rfl, rfl, rfl, rfl, rfl⟩
      · split <;> exact ⟨rfl, rfl, rfl, rfl, rfl, rfl⟩

/-- C9 counterexample: on a session with a nonempty history and a set system
instruction, the clear-conversation command changes two distinct fields
(history and systemInstruction), refuting the claim that every settings
command mutates exactly one field. -/
theorem C9_command_counterexample :
    (cmdNewChat
      { history := [{ role := Role.user, parts := [CPart.text "hi"] }]
        systemInstruction := some "be brief"
        model := "m"
        urlContext := false
        googleSearch := true
        talkMode := true
        totalTokens := 5 }).history ≠
      ({ history := [{ role := Role.user, parts := [CPart.text "hi"] }]
         systemInstruction := some "be brief"
         model := "m"
         urlContext := false
         googleSearch := true
         talkMode := true
         totalTokens := 5 } : Session).history ∧
    (cmdNewChat
      { history := [{ role := Role.user, parts := [CPart.text "hi"] }]
        systemInstruction := some "be brief"
        model := "m"
        urlContext := false
        googleSearch := true
        talkMode := true
        totalTokens := 5 }).systemInstruction ≠
      ({ history := [{ role := Role.user, parts := [CPart.text "hi"] }]
         systemInstruction := some "be brief"
         model := "m"
         urlContext := false
         googleSearch := true
         talkMode := true
         totalTokens := 5 } : Session).systemInstruction := by
  decide

/-! ### Claim C10: token counter monotonicity -/

/-- C10: the cumulative token counter never decreases: every handler run adds
a non-negative amount (the usage-metadata total, else the countTokens
estimate, else zero when counting fails), and no settings command changes the
counter; in particular the clear-conversation command clears the history and
the system instruction but leaves the counter exactly unchanged. -/
theorem C10_token_monotonicity (s : Session) (u : Update) (env : IOEnv) (arg : String) :
    s.totalTokens ≤ (handleUpdate s u env).session.totalTokens ∧
    (cmdNewChat s).totalTokens = s.totalTokens ∧
    (cmdNewChat s).history = [] ∧
    (cmdNewChat s).systemInstruction = none ∧
    (cmdSetSystemInstruction s arg).totalTokens = s.totalTokens ∧
    (cmdSetModel s arg).totalTokens = s.totalTokens ∧
    (cmdToggleTalkMode s).totalTokens = s.totalTokens ∧
    (cmdToggleUrlContext s).totalTokens = s.totalTokens ∧
    (cmdToggleGrounding s).totalTokens = s.totalTokens := by
  refine ⟨?_, rfl, rfl, rfl, ?_, ?_, rfl, rfl, rfl⟩
  · unfold handleUpdate
    dsimp only
    split
    · exact Nat.le_refl _
    · split
      · split
        · exact Nat.le_refl _
        · exact Nat.le_refl _
      · split
        · exact Nat.le_add_right _ _
        · exact Nat.le_refl _
  · unfold cmdSetSystemInstruction
    split <;> rfl
  · unfold cmdSetModel
    dsimp only
    split
    · rfl
    · split
      · rfl
      · split <;> rfl

/-- C1 witness: one successful exchange starting from the empty history
satisfies the alternation property. -/
theorem C1_alternation_witness :
    AlternationHolds
      (([([CPart.text "Hello"], "Hi")]).foldl
        (fun h op => successHistoryUpdate h op.1 op.2) []) :=
  C1_alternation_failure_free [([CPart.text "Hello"], "Hi")]
